import Mathlib

/-
  Verification of the movie-watchlist application core.

  The definitions below are a shallow embedding of the JavaScript source:
  * `src/models/movieModel.js` (Supabase-backed movie model),
  * `src/controllers/movieController.js`,
  * `src/app.js` (CSRF guard and authentication wall),
  * `src/services/authService.js` and `src/controllers/userController.js`
    (login and account deletion),
  * the external API controller (TMDB search client).

  The Supabase store is modelled as an explicit state (`DB`): a `users`
  projection (list of user ids), a `movies` table, and the SERIAL id
  sequence `nextId`.  The `movies` table schema (README.md) carries the
  check constraints `desire_scale BETWEEN 1 AND 5` and
  `rating BETWEEN 1 AND 5`; an insert or update violating them makes the
  store report an error, which the model layer maps to `null`/`false`.
  A PostgREST `.single()` request errors whenever the number of affected
  rows differs from one (the mutation itself is still applied); a delete
  or update without `.select()` succeeds even when zero rows match.
  Dates are opaque strings supplied by the caller; `created_at` and
  `updated_at` are abstract ticks (naturals).
-/

namespace Watchlist

/-- JavaScript truthiness of an optional string (`undefined` and `""` are falsy). -/
def truthyStr : Option String → Bool
  | none => false
  | some s => s != ""

/-- JavaScript `path.startsWith(head)`, computed structurally on the
character data. -/
def strStarts (s head : String) : Bool := head.data.isPrefixOf s.data

/-- JavaScript `s.trim()`: strip leading and trailing whitespace, computed
structurally on the character data. -/
def jsTrim (s : String) : String :=
  String.mk
    (((s.data.dropWhile fun c => c.isWhitespace).reverse.dropWhile
        fun c => c.isWhitespace).reverse)

/-- JavaScript truthiness of an optional number (`undefined` and `0` are falsy). -/
def truthyInt : Option Int → Bool
  | none => false
  | some v => v != 0

/-- JavaScript truthiness of an optional float (`undefined` and `0` are falsy). -/
def truthyRat : Option Rat → Bool
  | none => false
  | some v => v != 0

/-- One row of the `movies` table (README.md schema). -/
structure MovieRow where
  id : Nat
  user_id : Nat
  title : String
  genre : String
  desire_scale : Int
  date_added : String
  watched : Bool
  watched_date : Option String
  rating : Option Int
  review : Option String
  tmdb_id : Option Int
  poster_path : Option String
  overview : Option String
  release_date : Option String
  vote_average : Option Rat
  created_at : Nat
  updated_at : Nat
deriving DecidableEq, Repr

/-- The Supabase-backed state: `users` projection, `movies` table, SERIAL sequence. -/
structure DB where
  users : List Nat
  movies : List MovieRow
  nextId : Nat
deriving DecidableEq, Repr

/-- The `desire_scale` check constraint of the `movies` table. -/
def desireScaleOk (d : Int) : Bool := decide (1 ≤ d ∧ d ≤ 5)

/-- The `rating` check constraint of the `movies` table (NULL passes). -/
def ratingOk : Option Int → Bool
  | none => true
  | some v => decide (1 ≤ v ∧ v ≤ 5)

/-! ## movieModel.js -/

/-- View of an Unwatched movie as mapped by `getAllWatchlistMovies` and `addMovie`. -/
structure WatchlistItem where
  id : Nat
  title : String
  genre : String
  desireScale : Int
  dateAdded : String
  watched : Bool
  tmdbId : Option Int
  posterPath : Option String
  overview : Option String
  releaseDate : Option String
  voteAverage : Option Rat
deriving DecidableEq, Repr

/-- View of a Watched movie as mapped by `getAllWatchedMovies`. -/
structure WatchedItem where
  id : Nat
  title : String
  genre : String
  watchedDate : Option String
  rating : Option Int
  review : Option String
  tmdbId : Option Int
  posterPath : Option String
  overview : Option String
  releaseDate : Option String
  voteAverage : Option Rat
deriving DecidableEq, Repr

/-- Return value of `markAsWatched`: `rating: data.rating || 0`,
`review: data.review || ''`. -/
structure WatchedResult where
  id : Nat
  title : String
  genre : String
  watchedDate : Option String
  rating : Int
  review : String
deriving DecidableEq, Repr

/-- The hard-coded fallback watchlist returned when no user can be resolved. -/
def fallbackWatchlistMovies : List WatchlistItem :=
  [ { id := 1, title := "The Matrix", genre := "sci-fi", desireScale := 5,
      dateAdded := "2024-01-15", watched := false, tmdbId := none,
      posterPath := none, overview := none, releaseDate := none, voteAverage := none },
    { id := 2, title := "Inception", genre := "sci-fi", desireScale := 5,
      dateAdded := "2024-01-20", watched := false, tmdbId := none,
      posterPath := none, overview := none, releaseDate := none, voteAverage := none } ]

/-- The hard-coded fallback watched list returned when no user can be resolved. -/
def fallbackWatchedMovies : List WatchedItem :=
  [ { id := 101, title := "Avengers: Endgame", genre := "action",
      watchedDate := some "2024-01-10", rating := some 5,
      review := some "Epic conclusion to the Marvel saga. Absolutely loved it!",
      tmdbId := none, posterPath := none, overview := none,
      releaseDate := none, voteAverage := none } ]

/-- Model of `getUserId` of movieModel.js called without a request: the first row of
the `users` table, or an error when the table is empty. -/
def getUserId (db : DB) : Option Nat := db.users.head?

/-- The `if (!userId) userId = await getUserId()` preamble shared by every
exported model operation. -/
def resolveUserId (db : DB) (userId : Option Nat) : Option Nat :=
  match userId with
  | some u => some u
  | none => getUserId db

/-- Insertion step of an insertion sort keeping `before`-smaller elements first. -/
def insertOrd (before : α → α → Bool) (x : α) : List α → List α
  | [] => [x]
  | y :: ys => if before x y then x :: y :: ys else y :: insertOrd before x ys

/-- Insertion sort by the Boolean precedence `before`, modelling the
`order(...)` clause of the store queries. -/
def sortOrd (before : α → α → Bool) : List α → List α
  | [] => []
  | x :: xs => insertOrd before x (sortOrd before xs)

/-- Model of `getAllWatchlistMovies(userId)`: the caller's Unwatched rows, newest
first by `created_at`, mapped to the view shape; the fallback list when no
user can be resolved. -/
def getAllWatchlistMovies (db : DB) (userId : Option Nat) : List WatchlistItem :=
  match resolveUserId db userId with
  | none => fallbackWatchlistMovies
  | some uid =>
    (sortOrd (fun a b => decide (b.created_at ≤ a.created_at))
        (db.movies.filter fun r => decide (r.user_id = uid ∧ r.watched = false))).map
      fun r =>
        { id := r.id, title := r.title, genre := r.genre,
          desireScale := r.desire_scale, dateAdded := r.date_added,
          watched := r.watched, tmdbId := r.tmdb_id, posterPath := r.poster_path,
          overview := r.overview, releaseDate := r.release_date,
          voteAverage := r.vote_average }

/-- Model of `getAllWatchedMovies(userId)`: the caller's Watched rows, newest first
by `watched_date`, mapped to the view shape; the fallback list when no user
can be resolved. -/
def getAllWatchedMovies (db : DB) (userId : Option Nat) : List WatchedItem :=
  match resolveUserId db userId with
  | none => fallbackWatchedMovies
  | some uid =>
    (sortOrd (fun a b => (b.watched_date.getD "") ≤ (a.watched_date.getD ""))
        (db.movies.filter fun r => decide (r.user_id = uid ∧ r.watched = true))).map
      fun r =>
        { id := r.id, title := r.title, genre := r.genre,
          watchedDate := r.watched_date, rating := r.rating, review := r.review,
          tmdbId := r.tmdb_id, posterPath := r.poster_path,
          overview := r.overview, releaseDate := r.release_date,
          voteAverage := r.vote_average }

/-- Input of `movieModel.addMovie` (the `movieData` object built by the
controller; optional TMDB fields already truthiness-filtered there). -/
structure MovieInput where
  title : String
  genre : String
  desireScale : Int
  tmdbId : Option Int := none
  posterPath : Option String := none
  overview : Option String := none
  releaseDate : Option String := none
  voteAverage : Option Rat := none
deriving DecidableEq, Repr

/-- Model of `addMovie(movie, userId)`: insert a new Unwatched row (SERIAL id,
`date_added` defaulted to the current date, optional TMDB fields included
only when truthy); the insert errors when the `desire_scale` check
constraint is violated, in which case the model returns `null` and the
store is unchanged. -/
def addMovie (db : DB) (movie : MovieInput) (userId : Option Nat)
    (today : String) (now : Nat) : Option WatchlistItem × DB :=
  match resolveUserId db userId with
  | none => (none, db)
  | some uid =>
    let row : MovieRow :=
      { id := db.nextId, user_id := uid, title := movie.title,
        genre := movie.genre, desire_scale := movie.desireScale,
        date_added := today, watched := false, watched_date := none,
        rating := none, review := none,
        tmdb_id := if truthyInt movie.tmdbId then movie.tmdbId else none,
        poster_path := if truthyStr movie.posterPath then movie.posterPath else none,
        overview := if truthyStr movie.overview then movie.overview else none,
        release_date := if truthyStr movie.releaseDate then movie.releaseDate else none,
        vote_average := if truthyRat movie.voteAverage then movie.voteAverage else none,
        created_at := now, updated_at := now }
    if desireScaleOk row.desire_scale then
      (some { id := row.id, title := row.title, genre := row.genre,
              desireScale := row.desire_scale, dateAdded := row.date_added,
              watched := row.watched, tmdbId := row.tmdb_id,
              posterPath := row.poster_path, overview := row.overview,
              releaseDate := row.release_date, voteAverage := row.vote_average },
       { db with movies := row :: db.movies, nextId := db.nextId + 1 })
    else
      (none, db)

/-- The row filter of `markAsWatched`: `(id, user_id, watched=false)`. -/
def isUnwatchedRowOf (id uid : Nat) (r : MovieRow) : Bool :=
  decide (r.id = id ∧ r.user_id = uid ∧ r.watched = false)

/-- The column update applied by `markAsWatched`. -/
def markUpd (today : String) (now : Nat) (r : MovieRow) : MovieRow :=
  { r with watched := true, watched_date := some today, updated_at := now }

/-- Store effect of the conditional update of `markAsWatched`: every row
matching `(id, user_id, watched=false)` receives the update. -/
def markApply (db : DB) (id uid : Nat) (today : String) (now : Nat) : DB :=
  { db with movies := db.movies.map fun r =>
      if isUnwatchedRowOf id uid r then markUpd today now r else r }

/-- The conditional update of `markAsWatched` for a resolved user: the
`.single()` response yields a row view exactly when one row matched. -/
def markCore (db : DB) (id uid : Nat) (today : String) (now : Nat) :
    Option WatchedResult × DB :=
  match db.movies.filter (isUnwatchedRowOf id uid) with
  | [r] =>
    (some { id := r.id, title := r.title, genre := r.genre,
            watchedDate := some today, rating := r.rating.getD 0,
            review := r.review.getD "" }, markApply db id uid today now)
  | _ => (none, markApply db id uid today now)

/-- Model of `markAsWatched(id, userId)`: conditional update of the rows matching
`(id, user_id, watched=false)`; the `.single()` response errors (model
returns `null`) unless exactly one row matched, while the update itself is
applied to every matching row. -/
def markAsWatched (db : DB) (id : Nat) (userId : Option Nat)
    (today : String) (now : Nat) : Option WatchedResult × DB :=
  match resolveUserId db userId with
  | none => (none, db)
  | some uid => markCore db id uid today now

/-- Model of `removeMovie(id, userId)`: delete the rows matching `(id, user_id)`;
the store reports no error even when zero rows match, so the model returns
`true` whenever a user was resolved. -/
def removeMovie (db : DB) (id : Nat) (userId : Option Nat) : Bool × DB :=
  match resolveUserId db userId with
  | none => (false, db)
  | some uid =>
    (true,
     { db with movies := db.movies.filter fun r =>
         !(decide (r.id = id ∧ r.user_id = uid)) })

/-- The column update applied by `updateMovieReview`: `review` and `rating`
only when defined, always `updated_at`. -/
def reviewUpd (review : Option String) (rating : Option Int) (now : Nat)
    (r : MovieRow) : MovieRow :=
  let r1 := { r with updated_at := now }
  let r2 := match review with
    | some s => { r1 with review := some s }
    | none => r1
  match rating with
  | some v => { r2 with rating := some v }
  | none => r2

/-- The row filter of `updateMovieReview`: `(id, user_id, watched=true)`. -/
def isWatchedRowOf (id uid : Nat) (r : MovieRow) : Bool :=
  decide (r.id = id ∧ r.user_id = uid ∧ r.watched = true)

/-- Model of `updateMovieReview(id, review, rating, userId)`: update the rows
matching `(id, user_id, watched=true)`; the store errors (model returns
`false`, state unchanged) only when a written row violates the `rating`
check constraint, and reports success even when zero rows match. -/
def updateMovieReview (db : DB) (id : Nat) (review : Option String)
    (rating : Option Int) (userId : Option Nat) (now : Nat) : Bool × DB :=
  match resolveUserId db userId with
  | none => (false, db)
  | some uid =>
    if (db.movies.filter (isWatchedRowOf id uid)).all
        (fun r => ratingOk (reviewUpd review rating now r).rating) then
      (true,
       { db with movies := db.movies.map fun r =>
           if isWatchedRowOf id uid r then reviewUpd review rating now r else r })
    else
      (false, db)

/-! ## movieController.js -/

/-- JSON response of the add-movie endpoint. -/
structure AddMovieRes where
  status : Nat
  success : Bool
  error : Option String
  movie : Option WatchlistItem
deriving DecidableEq, Repr

/-- JSON response of the mark-watched endpoint. -/
structure MarkWatchedRes where
  status : Nat
  success : Bool
  error : Option String
  watchedMovie : Option WatchedResult
deriving DecidableEq, Repr

/-- JSON response of the remove and update-review endpoints. -/
structure SimpleRes where
  status : Nat
  success : Bool
  error : Option String
deriving DecidableEq, Repr

/-- Request body of the add-movie endpoint. -/
structure AddMovieBody where
  title : Option String := none
  genre : Option String := none
  desireScale : Option Int := none
  tmdbId : Option Int := none
  posterPath : Option String := none
  overview : Option String := none
  releaseDate : Option String := none
  voteAverage : Option Rat := none
deriving DecidableEq, Repr

/-- Model of `movieController.addMovie`: `!title || !genre || !desireScale` fails 400
Missing required fields; a missing session user fails 401; a `null` from the
model fails 500; otherwise 200 with the created movie. -/
def ctrlAddMovie (db : DB) (sessionUser : Option Nat) (body : AddMovieBody)
    (today : String) (now : Nat) : AddMovieRes × DB :=
  if !(truthyStr body.title && truthyStr body.genre && truthyInt body.desireScale) then
    ({ status := 400, success := false, error := some "Missing required fields",
       movie := none }, db)
  else
    match sessionUser with
    | none =>
      ({ status := 401, success := false, error := some "User not authenticated",
         movie := none }, db)
    | some uid =>
      let movieData : MovieInput :=
        { title := body.title.getD "", genre := body.genre.getD "",
          desireScale := body.desireScale.getD 0,
          tmdbId := if truthyInt body.tmdbId then body.tmdbId else none,
          posterPath := if truthyStr body.posterPath then body.posterPath else none,
          overview := if truthyStr body.overview then body.overview else none,
          releaseDate := if truthyStr body.releaseDate then body.releaseDate else none,
          voteAverage := if truthyRat body.voteAverage then body.voteAverage else none }
      match addMovie db movieData (some uid) today now with
      | (none, db') =>
        ({ status := 500, success := false, error := some "Failed to add movie",
           movie := none }, db')
      | (some newMovie, db') =>
        ({ status := 200, success := true, error := none,
           movie := some newMovie }, db')

/-- Model of `movieController.markAsWatched`: `null` from the model fails 404 Movie
not found; otherwise, when `rating || review` is truthy, the review update
is applied (its failure only logged) and the response carries the view
returned by the transition itself. -/
def ctrlMarkAsWatched (db : DB) (sessionUser : Option Nat) (movieId : Nat)
    (rating : Option Int) (review : Option String)
    (today : String) (now : Nat) : MarkWatchedRes × DB :=
  match markAsWatched db movieId sessionUser today now with
  | (none, db') =>
    ({ status := 404, success := false, error := some "Movie not found",
       watchedMovie := none }, db')
  | (some watchedMovie, db') =>
    let db'' :=
      if truthyInt rating || truthyStr review then
        (updateMovieReview db' movieId review rating sessionUser now).2
      else db'
    ({ status := 200, success := true, error := none,
       watchedMovie := some watchedMovie }, db'')

/-- Model of `movieController.removeMovie`: `false` from the model fails 404 Movie
not found; otherwise 200. -/
def ctrlRemoveMovie (db : DB) (sessionUser : Option Nat) (movieId : Nat) :
    SimpleRes × DB :=
  match removeMovie db movieId sessionUser with
  | (false, db') =>
    ({ status := 404, success := false, error := some "Movie not found" }, db')
  | (true, db') =>
    ({ status := 200, success := true, error := none }, db')

/-- Model of `movieController.updateReview`: `false` from the model fails 404 Movie
not found; otherwise 200. -/
def ctrlUpdateReview (db : DB) (sessionUser : Option Nat) (movieId : Nat)
    (review : Option String) (rating : Option Int) (now : Nat) :
    SimpleRes × DB :=
  match updateMovieReview db movieId review rating sessionUser now with
  | (false, db') =>
    ({ status := 404, success := false, error := some "Movie not found" }, db')
  | (true, db') =>
    ({ status := 200, success := true, error := none }, db')

/-! ## app.js: CSRF guard and authentication wall -/

/-- The request shape seen by the app-level middleware. -/
structure HttpRequest where
  path : String
  method : String
  hasSessionUser : Bool
  csrfValid : Bool
deriving DecidableEq, Repr

/-- Middleware-level outcome of a request. -/
inductive AppOutcome where
  | errorPage (status : Nat)
  | redirect (location : String)
  | routed
deriving DecidableEq, Repr

/-- The methods the csurf middleware does not validate (its documented
default `ignoreMethods`). -/
def csrfIgnoredMethod (m : String) : Bool :=
  m == "GET" || m == "HEAD" || m == "OPTIONS"

/-- The app-level error handler: a csurf `EBADCSRFTOKEN` error renders the
403 page, anything else the generic error page with the error's status
(500 by default). -/
def errorHandlerStatus (errCode : Option String) (errStatus : Option Nat) : Nat :=
  if errCode == some "EBADCSRFTOKEN" then 403 else errStatus.getD 500

/-- The conditional CSRF middleware of app.js: requests whose path starts
with the `/api/` route mount skip csurf entirely; every other mutating
request is rejected when the submitted token does not match the
session-bound secret. -/
def csrfRejects (req : HttpRequest) : Bool :=
  !(strStarts req.path "/api/") && !(csrfIgnoredMethod req.method) && !req.csrfValid

/-- The authentication wall of app.js: `/users`, `/css` and `/js` paths pass
through, otherwise a session user is required. -/
def authWallAllows (req : HttpRequest) : Bool :=
  strStarts req.path "/users" || strStarts req.path "/css" ||
    strStarts req.path "/js" || req.hasSessionUser

/-- The middleware chain of app.js: the CSRF guard runs first (its failure
reaches the error handler as `EBADCSRFTOKEN`), then the authentication
wall, then the mounted routes. -/
def dispatch (req : HttpRequest) : AppOutcome :=
  if csrfRejects req then
    .errorPage (errorHandlerStatus (some "EBADCSRFTOKEN") none)
  else if authWallAllows req then
    .routed
  else
    .redirect "/users/login"

/-! ## authService.js login and userController.js postLogin -/

/-- Outcome of `supabase.auth.signInWithPassword`: either a session with
tokens, or a rejection carrying the backend's reason message. -/
inductive BackendLogin where
  | ok (userId email accessToken refreshToken : String) (expiresAt : Nat)
  | rejected (message : String)
deriving DecidableEq, Repr

/-- Result shape of `AuthService.login`. -/
structure ServiceLoginResult where
  success : Bool
  error : Option String
deriving DecidableEq, Repr

/-- Model of `AuthService.login`: a backend error is rethrown as
`Login failed: <backend message>` and caught into a failure result. -/
def serviceLogin (b : BackendLogin) : ServiceLoginResult :=
  match b with
  | .ok _ _ _ _ _ => { success := true, error := none }
  | .rejected m => { success := false, error := some ("Login failed: " ++ m) }

/-- Caller-visible outcome of the login endpoint. -/
inductive LoginPageOutcome where
  | renderError (message : String)
  | redirectHome
deriving DecidableEq, Repr

/-- Model of `userController.postLogin`: missing email or password renders the form
with a fixed message; a failed `AuthService.login` renders the form with
`result.error`; success stores the session and redirects home. -/
def postLogin (email password : Option String) (b : BackendLogin) :
    LoginPageOutcome :=
  if !(truthyStr email && truthyStr password) then
    .renderError "Email and password are required"
  else
    let result := serviceLogin b
    if result.success then .redirectHome
    else .renderError (result.error.getD "")

/-! ## authService.js deleteAccount and userController.js postDeleteAccount -/

/-- Combined outcome of the identity-backend interactions inside
`AuthService.deleteAccount` (`setSession`, `getUser`, admin `deleteUser`). -/
inductive BackendDelete where
  | sessionError (message : String)
  | getUserError (message : String)
  | deleteError (message : String)
  | ok (userId email : String)
deriving DecidableEq, Repr

/-- Result shape of `AuthService.deleteAccount`. -/
structure DeleteAccountResult where
  success : Bool
  userId : Option String
deriving DecidableEq, Repr

/-- Model of `AuthService.deleteAccount`: any backend error (session, user lookup,
admin deletion) is caught into a failure result; only a confirmed admin
deletion yields success with the deleted user's id. -/
def deleteAccountService (b : BackendDelete) : DeleteAccountResult :=
  match b with
  | .sessionError _ => { success := false, userId := none }
  | .getUserError _ => { success := false, userId := none }
  | .deleteError _ => { success := false, userId := none }
  | .ok uid _ => { success := true, userId := some uid }

/-- Response of the delete-account endpoint, together with whether the
local session was destroyed. -/
structure DeleteResponse where
  status : Nat
  success : Bool
  sessionDestroyed : Bool
deriving DecidableEq, Repr

/-- Model of `userController.postDeleteAccount`: a missing session user fails 401;
the user's movie rows are cleared, then `AuthService.deleteAccount` runs;
on its failure the endpoint fails 500 with the session left intact;
`req.session.destroy()` runs only after the backend confirmed the identity
deletion. -/
def postDeleteAccount (hasSessionUser : Bool) (b : BackendDelete) :
    DeleteResponse :=
  if !hasSessionUser then
    { status := 401, success := false, sessionDestroyed := false }
  else
    let result := deleteAccountService b
    if !result.success then
      { status := 500, success := false, sessionDestroyed := false }
    else
      { status := 200, success := true, sessionDestroyed := true }

/-! ## External API controller (TMDB search client) -/

/-- A candidate record of the third-party metadata service; the controller
passes `data.results` through untouched. -/
structure TmdbRecord where
  tmdbId : Nat
  title : String
deriving DecidableEq, Repr

/-- One upstream interaction of the search endpoint: a 2xx JSON payload, a
non-2xx status, or a thrown network failure. -/
inductive UpstreamResponse where
  | ok (results : List TmdbRecord) (totalResults : Nat)
  | httpError (status : Nat)
  | networkFailure (message : String)
deriving DecidableEq, Repr

/-- JSON response of the search endpoint. -/
structure SearchRes where
  status : Nat
  success : Bool
  error : Option String
  results : Option (List TmdbRecord)
  totalResults : Option Nat
deriving DecidableEq, Repr

/-- Model of `apiController.searchMovies`: an absent, empty or whitespace-only query
fails 400; a missing API key fails 500; an upstream 429 fails 429 with the
rate-limit message; any other non-2xx upstream status or network failure is
thrown and caught into the generic 500 message; a 2xx upstream response
yields the candidate list and total count. -/
def searchMovies (query : Option String) (apiKeyConfigured : Bool)
    (up : UpstreamResponse) : SearchRes :=
  if !truthyStr query || jsTrim (query.getD "") == "" then
    { status := 400, success := false, error := some "Search query is required",
      results := none, totalResults := none }
  else if !apiKeyConfigured then
    { status := 500, success := false, error := some "TMDB API key not configured",
      results := none, totalResults := none }
  else
    match up with
    | .ok results totalResults =>
      { status := 200, success := true, error := none,
        results := some results, totalResults := some totalResults }
    | .httpError s =>
      if s == 429 then
        { status := 429, success := false,
          error := some "Rate limit exceeded. Please try again later.",
          results := none, totalResults := none }
      else
        { status := 500, success := false,
          error := some "Failed to search movies. Please try again later.",
          results := none, totalResults := none }
    | .networkFailure _ =>
      { status := 500, success := false,
        error := some "Failed to search movies. Please try again later.",
        results := none, totalResults := none }

/-- Number of upstream lookups `searchMovies` issues: the handler contains a
single `fetch` with no loop or retry, reached only past the validation and
configuration checks. -/
def searchMoviesFetchCount (query : Option String) (apiKeyConfigured : Bool) : Nat :=
  if !truthyStr query || jsTrim (query.getD "") == "" then 0
  else if !apiKeyConfigured then 0
  else 1

/-! ## Operation alphabet of the watchlist state machine -/

/-- One invocation of a movie-model operation, as dispatched by the
controllers. -/
inductive WatchlistOp where
  | add (movie : MovieInput) (userId : Option Nat) (today : String) (now : Nat)
  | mark (id : Nat) (userId : Option Nat) (today : String) (now : Nat)
  | remove (id : Nat) (userId : Option Nat)
  | review (id : Nat) (review : Option String) (rating : Option Int)
      (userId : Option Nat) (now : Nat)
  | listUnwatched (userId : Option Nat)
  | listWatched (userId : Option Nat)

/-- Effect of one operation on the store. -/
def applyOp (db : DB) : WatchlistOp → DB
  | .add m u t n => (addMovie db m u t n).2
  | .mark i u t n => (markAsWatched db i u t n).2
  | .remove i u => (removeMovie db i u).2
  | .review i rv rt u n => (updateMovieReview db i rv rt u n).2
  | .listUnwatched _ => db
  | .listWatched _ => db

/-- Effect of a sequence of operations on the store. -/
def applyOps (db : DB) : List WatchlistOp → DB
  | [] => db
  | op :: rest => applyOps (applyOp db op) rest

/-! ## Invariant machinery for the Unwatched-to-Watched one-way transition -/

/-- Every row id is below the SERIAL sequence value (true of every store the
application ever produces, since ids are store-assigned). -/
def IdsBounded (db : DB) : Prop := ∀ r ∈ db.movies, r.id < db.nextId

/-- Every row carrying the given id is Watched. -/
def IdWatched (db : DB) (i : Nat) : Prop :=
  ∀ r ∈ db.movies, r.id = i → r.watched = true

/-! ## Concrete stores used to evaluate the embedding -/

/-- A Movie owned by user `1`, Unwatched, with no rating or review yet. -/
def movieOfUserA : MovieRow :=
  { id := 10, user_id := 1, title := "Dune", genre := "sci-fi", desire_scale := 5,
    date_added := "2024-01-01", watched := false, watched_date := none,
    rating := none, review := none, tmdb_id := none, poster_path := none,
    overview := none, release_date := none, vote_average := none,
    created_at := 0, updated_at := 0 }

/-- Two users `1` and `2`; the single Movie row belongs to user `1`. -/
def dbTwoUsers : DB := { users := [1, 2], movies := [movieOfUserA], nextId := 11 }

/-- One user and an empty movies table. -/
def dbOneUser : DB := { users := [1], movies := [], nextId := 20 }

/-- Store for the end-to-end scenario: one registered user, no movies. -/
def dbScenario : DB := { users := [1], movies := [], nextId := 10 }

/-- Scenario step 1: add the Dune movie through the controller. -/
def scenarioAdd : AddMovieRes × DB :=
  ctrlAddMovie dbScenario (some 1)
    { title := some "Dune", genre := some "sci-fi", desireScale := some 5 }
    "2024-01-01" 0

/-- Scenario step 2: mark the new movie watched with rating 4. -/
def scenarioMark : MarkWatchedRes × DB :=
  ctrlMarkAsWatched scenarioAdd.2 (some 1) 10 (some 4) none "2024-01-02" 1

/-- An Unwatched row of user `7` used to exercise the one-way transition. -/
def movieOfUserC : MovieRow :=
  { id := 10, user_id := 7, title := "m", genre := "g", desire_scale := 3,
    date_added := "d0", watched := false, watched_date := none,
    rating := none, review := none, tmdb_id := none, poster_path := none,
    overview := none, release_date := none, vote_average := none,
    created_at := 0, updated_at := 0 }

/-- Store holding exactly `movieOfUserC`. -/
def dbMark : DB := { users := [7], movies := [movieOfUserC], nextId := 11 }

/-- The store after `movieOfUserC` was marked watched. -/
def dbMarked : DB := { users := [7], movies := [markUpd "d1" 1 movieOfUserC], nextId := 11 }

/-! ## Helper lemmas -/

/-- A Watched row stays Watched under the `markAsWatched` column update. -/
theorem markUpd_watched (today : String) (now : Nat) (r : MovieRow) :
    (markUpd today now r).watched = true := rfl

/-- The `updateMovieReview` column update never touches `watched`. -/
theorem reviewUpd_watched (review : Option String) (rating : Option Int)
    (now : Nat) (r : MovieRow) :
    (reviewUpd review rating now r).watched = r.watched := by
  cases review <;> cases rating <;> rfl

/-- The `updateMovieReview` column update never touches `id`. -/
theorem reviewUpd_id (review : Option String) (rating : Option Int)
    (now : Nat) (r : MovieRow) :
    (reviewUpd review rating now r).id = r.id := by
  cases review <;> cases rating <;> rfl

theorem map_if_not {α : Type} {p : α → Bool} {f : α → α} {l : List α}
    (h : ∀ x ∈ l, p x = false) :
    (l.map fun x => if p x then f x else x) = l := by
  induction l with
  | nil => rfl
  | cons y ys ih =>
    have hy := h y (List.mem_cons_self y ys)
    simp only [List.map_cons, hy, Bool.false_eq_true, if_false]
    rw [ih fun x hx => h x (List.mem_cons_of_mem y hx)]

/-- After the conditional update ran, no row matches
`(id, user_id, watched=false)` any more. -/
theorem markApply_filter_nil (db : DB) (id uid : Nat) (t : String) (n : Nat) :
    (markApply db id uid t n).movies.filter (isUnwatchedRowOf id uid) = [] := by
  refine List.filter_eq_nil_iff.mpr ?_
  intro y hy
  simp only [markApply, List.mem_map] at hy
  obtain ⟨x, _, rfl⟩ := hy
  by_cases h : isUnwatchedRowOf id uid x
  · simp only [h, if_true]
    simp [isUnwatchedRowOf, markUpd]
  · simp only [h, Bool.false_eq_true, if_false]
    simp [h]

/-- A store with no matching Unwatched row is untouched by `markApply`. -/
theorem markApply_eq_self (db : DB) (id uid : Nat) (t : String) (n : Nat)
    (hnil : db.movies.filter (isUnwatchedRowOf id uid) = []) :
    markApply db id uid t n = db := by
  unfold markApply
  rw [map_if_not fun x hx => ?_]
  · have := List.filter_eq_nil_iff.mp hnil x hx
    simpa using this

/-- A second `markAsWatched` against a store with no matching Unwatched row
fails and leaves the store unchanged. -/
theorem markAsWatched_noMatch (db : DB) (id uid : Nat)
    (hnil : db.movies.filter (isUnwatchedRowOf id uid) = []) (t : String) (n : Nat) :
    markAsWatched db id (some uid) t n = (none, db) := by
  show markCore db id uid t n = (none, db)
  unfold markCore
  rw [hnil, markApply_eq_self db id uid t n hnil]

/-- Inversion of a successful `markAsWatched`: exactly one row matched, and
the resulting store is the conditional update applied. -/
theorem markAsWatched_some_inv {db : DB} {id uid : Nat} {t : String} {n : Nat}
    {v : WatchedResult} {db2 : DB}
    (h : markAsWatched db id (some uid) t n = (some v, db2)) :
    (∃ r, db.movies.filter (isUnwatchedRowOf id uid) = [r] ∧
       isUnwatchedRowOf id uid r = true ∧ r ∈ db.movies) ∧
      db2 = markApply db id uid t n := by
  have h' : markCore db id uid t n = (some v, db2) := h
  unfold markCore at h'
  cases hf : db.movies.filter (isUnwatchedRowOf id uid) with
  | nil => rw [hf] at h'; simp at h'
  | cons r rs =>
    cases rs with
    | nil =>
      rw [hf] at h'
      have hr : r ∈ db.movies.filter (isUnwatchedRowOf id uid) := by
        rw [hf]; exact List.mem_singleton.mpr rfl
      refine ⟨⟨r, rfl, List.of_mem_filter hr, List.mem_of_mem_filter hr⟩, ?_⟩
      exact (congrArg Prod.snd h').symm
    | cons r2 rs2 => rw [hf] at h'; simp at h'

/-- The conditional update preserves id bounds and keeps Watched ids
Watched: it only ever sets `watched` to `true` and touches no id. -/
theorem markApply_preserves (db : DB) (id uid : Nat) (t : String) (n : Nat)
    (i : Nat) (hb : IdsBounded db) (hw : IdWatched db i) :
    IdsBounded (markApply db id uid t n) ∧ IdWatched (markApply db id uid t n) i := by
  constructor
  · intro r' hr'
    simp only [markApply, List.mem_map] at hr'
    obtain ⟨x, hx, rfl⟩ := hr'
    by_cases h : isUnwatchedRowOf id uid x
    · simpa [h, markUpd] using hb x hx
    · simpa [h] using hb x hx
  · intro r' hr' hid
    simp only [markApply, List.mem_map] at hr'
    obtain ⟨x, hx, rfl⟩ := hr'
    by_cases h : isUnwatchedRowOf id uid x
    · simp [h, markUpd]
    · simp only [h, Bool.false_eq_true, if_false] at hid ⊢
      exact hw x hx hid

/-- Every single operation keeps ids bounded, never decreases the SERIAL
sequence, and never moves a Movie from Watched back to Unwatched. -/
theorem applyOp_preserves (db : DB) (op : WatchlistOp) (i : Nat)
    (hb : IdsBounded db) (hi : i < db.nextId) (hw : IdWatched db i) :
    IdsBounded (applyOp db op) ∧ db.nextId ≤ (applyOp db op).nextId ∧
      IdWatched (applyOp db op) i := by
  cases op with
  | add m u t n =>
    show IdsBounded (addMovie db m u t n).2 ∧
      db.nextId ≤ (addMovie db m u t n).2.nextId ∧ IdWatched (addMovie db m u t n).2 i
    unfold addMovie
    cases resolveUserId db u with
    | none => exact ⟨hb, le_refl _, hw⟩
    | some uid =>
      by_cases hds : desireScaleOk m.desireScale
      · simp only [hds, if_true]
        refine ⟨?_, Nat.le_succ _, ?_⟩
        · intro r hr
          rcases List.mem_cons.mp hr with hr | hr
          · subst hr; exact Nat.lt_succ_self _
          · exact Nat.lt_succ_of_lt (hb r hr)
        · intro r hr hid
          rcases List.mem_cons.mp hr with hr | hr
          · subst hr
            simp only at hid
            omega
          · exact hw r hr hid
      · simp only [hds, Bool.false_eq_true, if_false]
        exact ⟨hb, le_refl _, hw⟩
  | mark id u t n =>
    show IdsBounded (markAsWatched db id u t n).2 ∧
      db.nextId ≤ (markAsWatched db id u t n).2.nextId ∧
      IdWatched (markAsWatched db id u t n).2 i
    unfold markAsWatched
    cases resolveUserId db u with
    | none => exact ⟨hb, le_refl _, hw⟩
    | some uid =>
      have hsnd : (markCore db id uid t n).2 = markApply db id uid t n := by
        unfold markCore
        cases hf : db.movies.filter (isUnwatchedRowOf id uid) with
        | nil => rfl
        | cons r rs => cases rs <;> rfl
      rw [hsnd]
      obtain ⟨h1, h2⟩ := markApply_preserves db id uid t n i hb hw
      exact ⟨h1, le_refl _, h2⟩
  | remove id u =>
    show IdsBounded (removeMovie db id u).2 ∧
      db.nextId ≤ (removeMovie db id u).2.nextId ∧ IdWatched (removeMovie db id u).2 i
    unfold removeMovie
    cases resolveUserId db u with
    | none => exact ⟨hb, le_refl _, hw⟩
    | some uid =>
      refine ⟨?_, le_refl _, ?_⟩
      · intro r hr
        exact hb r (List.mem_of_mem_filter hr)
      · intro r hr hid
        exact hw r (List.mem_of_mem_filter hr) hid
  | review id rv rt u n =>
    show IdsBounded (updateMovieReview db id rv rt u n).2 ∧
      db.nextId ≤ (updateMovieReview db id rv rt u n).2.nextId ∧
      IdWatched (updateMovieReview db id rv rt u n).2 i
    unfold updateMovieReview
    cases resolveUserId db u with
    | none => exact ⟨hb, le_refl _, hw⟩
    | some uid =>
      by_cases hok : (db.movies.filter (isWatchedRowOf id uid)).all
          (fun r => ratingOk (reviewUpd rv rt n r).rating)
      · simp only [hok, if_true]
        refine ⟨?_, le_refl _, ?_⟩
        · intro r' hr'
          simp only [List.mem_map] at hr'
          obtain ⟨x, hx, rfl⟩ := hr'
          by_cases h : isWatchedRowOf id uid x
          · simpa [h, reviewUpd_id] using hb x hx
          · simpa [h] using hb x hx
        · intro r' hr' hid
          simp only [List.mem_map] at hr'
          obtain ⟨x, hx, rfl⟩ := hr'
          by_cases h : isWatchedRowOf id uid x
          · rw [if_pos h] at hid ⊢
            rw [reviewUpd_watched, reviewUpd_id] at *
            exact hw x hx hid
          · rw [if_neg (by simp [h])] at hid ⊢
            exact hw x hx hid
      · simp only [hok, Bool.false_eq_true, if_false]
        exact ⟨hb, le_refl _, hw⟩
  | listUnwatched u => exact ⟨hb, le_refl _, hw⟩
  | listWatched u => exact ⟨hb, le_refl _, hw⟩

/-- No sequence of operations ever takes a Watched Movie back to
Unwatched. -/
theorem applyOps_idWatched (ops : List WatchlistOp) (db : DB) (i : Nat)
    (hb : IdsBounded db) (hi : i < db.nextId) (hw : IdWatched db i) :
    IdWatched (applyOps db ops) i := by
  induction ops generalizing db with
  | nil => exact hw
  | cons op rest ih =>
    obtain ⟨hb', hle, hw'⟩ := applyOp_preserves db op i hb hi hw
    exact ih (applyOp db op) hb' (lt_of_lt_of_le hi hle) hw'

/-! ## Claim theorems -/

/-- Claim C1 (code bug evaluation): with users 1 and 2 and a Movie owned by
user 1, user 2's removeMovie and updateReview calls against that Movie's id
report 200 success — not NotFound as specified — while touching no row (the
delete and update match zero rows, and the store reports no error for a
zero-row mutation, so the model returns success and the controller's 404
branch is unreachable); the Movie correctly never appears in user 2's
listUnwatched/listWatched results. -/
theorem c1_cross_owner_mutation_reports_success :
    (ctrlRemoveMovie dbTwoUsers (some 2) 10).1
      = { status := 200, success := true, error := none } ∧
    (ctrlRemoveMovie dbTwoUsers (some 2) 10).2 = dbTwoUsers ∧
    (ctrlUpdateReview dbTwoUsers (some 2) 10 (some "great") (some 5) 99).1
      = { status := 200, success := true, error := none } ∧
    (ctrlUpdateReview dbTwoUsers (some 2) 10 (some "great") (some 5) 99).2
      = dbTwoUsers ∧
    (getAllWatchlistMovies dbTwoUsers (some 2)).all (fun v => v.id != 10) = true ∧
    (getAllWatchedMovies dbTwoUsers (some 2)).all (fun v => v.id != 10) = true := by
  decide

/-- Claim C6 (code bug evaluation): updateReview on an Unwatched Movie owned
by the caller reports 200 success — not NotFound as specified — and is a
no-op on the store: the update filtered on `watched=true` matches zero rows,
the store reports no error, the model returns `true`, and the controller's
404 branch is unreachable. -/
theorem c6_unwatched_review_reports_success :
    movieOfUserA.watched = false ∧
    movieOfUserA.user_id = 1 ∧
    (ctrlUpdateReview dbTwoUsers (some 1) 10 (some "nice") (some 4) 5).1
      = { status := 200, success := true, error := none } ∧
    (ctrlUpdateReview dbTwoUsers (some 1) 10 (some "nice") (some 4) 5).2
      = dbTwoUsers := by
  decide

/-- Claim C5 counterexample: addMovie with desireScale 6 (title and genre
present, caller authenticated) is rejected with the generic 500 failure
raised when the store refuses the insert, not with the 400 ValidationError
the claim states. -/
theorem c5_counterexample :
    (ctrlAddMovie dbOneUser (some 1)
        { title := some "T", genre := some "g", desireScale := some 6 }
        "d" 0).1.status = 500 ∧
    (ctrlAddMovie dbOneUser (some 1)
        { title := some "T", genre := some "g", desireScale := some 6 }
        "d" 0).1.status ≠ 400 ∧
    (ctrlAddMovie dbOneUser (some 1)
        { title := some "T", genre := some "g", desireScale := some 6 }
        "d" 0).1.error = some "Failed to add movie" := by
  decide

/-- Claim C5 (amended): addMovie fails 400 ValidationError when title,
genre or desireScale is absent; desireScale 0 is rejected with the same 400
(it is falsy, so the missing-fields check catches it); desireScale 1 and 5
are accepted; desireScale 6 passes the controller and is rejected only by
the store's check constraint, surfacing as a 500 generic failure rather
than a ValidationError. -/
theorem c5_addMovie_validation (db : DB) (uid : Nat) (t g : String)
    (ht : t ≠ "") (hg : g ≠ "") (today : String) (now : Nat) :
    (ctrlAddMovie db (some uid)
        { title := some t, genre := some g, desireScale := some 0 } today now).1
      = { status := 400, success := false,
          error := some "Missing required fields", movie := none } ∧
    (ctrlAddMovie db (some uid)
        { title := none, genre := some g, desireScale := some 3 } today now).1.status
      = 400 ∧
    (ctrlAddMovie db (some uid)
        { title := some t, genre := none, desireScale := some 3 } today now).1.status
      = 400 ∧
    (ctrlAddMovie db (some uid)
        { title := some t, genre := some g, desireScale := none } today now).1.status
      = 400 ∧
    (ctrlAddMovie db (some uid)
        { title := some t, genre := some g, desireScale := some 1 } today now).1.status
      = 200 ∧
    (ctrlAddMovie db (some uid)
        { title := some t, genre := some g, desireScale := some 1 } today now).1.success
      = true ∧
    (ctrlAddMovie db (some uid)
        { title := some t, genre := some g, desireScale := some 5 } today now).1.status
      = 200 ∧
    (ctrlAddMovie db (some uid)
        { title := some t, genre := some g, desireScale := some 6 } today now).1.status
      = 500 := by
  refine ⟨?_, ?_, ?_, ?_, ?_, ?_, ?_, ?_⟩ <;>
    simp [ctrlAddMovie, addMovie, resolveUserId, desireScaleOk,
      truthyStr, truthyInt, truthyRat, ht, hg]

/-- Claim C5 witness: the amended validation behavior at concrete inputs. -/
theorem c5_addMovie_validation_witness :
    (ctrlAddMovie dbOneUser (some 1)
        { title := some "T", genre := some "g", desireScale := some 0 } "d" 0).1
      = { status := 400, success := false,
          error := some "Missing required fields", movie := none } ∧
    (ctrlAddMovie dbOneUser (some 1)
        { title := some "T", genre := some "g", desireScale := some 1 } "d" 0).1.status
      = 200 := by
  have h := c5_addMovie_validation dbOneUser 1 "T" "g" (by decide) (by decide) "d" 0
  exact ⟨h.1, h.2.2.2.2.1⟩

/-- Claim C7 counterexample: in the end-to-end scenario, markWatched with
rating 4 on the owned Unwatched Dune movie returns a representation with
rating 0 and review "" — not rating 4 and review null as the claim states —
because the response is built from the row as returned by the watch
transition, before the rating was applied, with null coalesced to 0 and "". -/
theorem c7_counterexample :
    scenarioMark.1.watchedMovie
      = some { id := 10, title := "Dune", genre := "sci-fi",
               watchedDate := some "2024-01-02", rating := 0, review := "" } ∧
    scenarioMark.1.watchedMovie.map WatchedResult.rating ≠ some 4 := by
  decide

/-- Claim C7 (amended): the scenario's addMovie returns a 200 Unwatched
movie; markWatched with rating 4 succeeds (200) and stores the Movie as
Watched with rating 4 and review null, but the returned representation
carries rating 0 and review "" (the pre-update values coalesced); a second
markWatched on the same id fails 404 NotFound. -/
theorem c7_scenario_behavior :
    scenarioAdd.1.status = 200 ∧
    scenarioAdd.1.movie.map WatchlistItem.watched = some false ∧
    scenarioMark.1.status = 200 ∧
    scenarioMark.1.watchedMovie.map WatchedResult.rating = some 0 ∧
    scenarioMark.1.watchedMovie.map WatchedResult.review = some "" ∧
    (scenarioMark.2.movies.filter (fun r => r.id == 10)).map
        (fun r => (r.watched, r.rating, r.review))
      = [(true, some 4, none)] ∧
    (ctrlMarkAsWatched scenarioMark.2 (some 1) 10 (some 4) none
        "2024-01-03" 2).1.status = 404 := by
  decide

/-- Claim C4 counterexample: two different backend login rejections (invalid
credentials versus unverified email) produce different caller-visible
failure outputs, so the failure output is not uniform across backend
rejection reasons. -/
theorem c4_counterexample :
    postLogin (some "a@x.com") (some "secret1")
        (.rejected "Invalid login credentials")
      ≠ postLogin (some "a@x.com") (some "secret1")
        (.rejected "Email not confirmed") := by
  decide

/-- Claim C4 (amended): on any backend rejection the login endpoint shows
the caller the backend's reason prefixed with a fixed marker, so the
caller-visible failure outputs of two runs coincide exactly when the
backend messages coincide — distinct backend reasons are leaked to the
caller rather than collapsed into one uniform failure. -/
theorem c4_login_leaks_backend_reason (email password m1 m2 : String)
    (he : email ≠ "") (hp : password ≠ "") :
    postLogin (some email) (some password) (.rejected m1)
      = .renderError ("Login failed: " ++ m1) ∧
    (postLogin (some email) (some password) (.rejected m1)
        = postLogin (some email) (some password) (.rejected m2) ↔ m1 = m2) := by
  have hrender : ∀ m : String,
      postLogin (some email) (some password) (.rejected m)
        = .renderError ("Login failed: " ++ m) := by
    intro m
    unfold postLogin serviceLogin
    simp [truthyStr, he, hp]
  refine ⟨hrender m1, ?_⟩
  rw [hrender m1, hrender m2]
  constructor
  · intro h
    have h2 : "Login failed: " ++ m1 = "Login failed: " ++ m2 := by
      simpa [LoginPageOutcome.renderError.injEq] using h
    have hd : ("Login failed: " ++ m1).data = ("Login failed: " ++ m2).data :=
      congrArg String.data h2
    simp [String.data_append] at hd
    exact String.ext hd
  · intro h
    rw [h]

/-- Claim C4 witness for the amended statement. -/
theorem c4_login_leaks_backend_reason_witness :
    postLogin (some "a@x.com") (some "pw1234") (.rejected "boom")
      = .renderError ("Login failed: " ++ "boom") ∧
    (postLogin (some "a@x.com") (some "pw1234") (.rejected "boom")
        = postLogin (some "a@x.com") (some "pw1234") (.rejected "bang")
      ↔ "boom" = "bang") := by
  exact c4_login_leaks_backend_reason "a@x.com" "pw1234" "boom" "bang"
    (by decide) (by decide)

/-- Claim C2: markWatched is a one-way transition. A successful markWatched
makes every later markWatched on the same id and owner fail (the model
returns null and the store is untouched; the endpoint reports 404
NotFound), and no sequence of movie-model operations ever takes a row with
that Movie's id from Watched back to Unwatched. Hypotheses: row ids are
unique and bounded by the SERIAL sequence, as the store guarantees. -/
theorem c2_markWatched_one_way (db : DB) (uid i : Nat) (t1 : String) (n1 : Nat)
    (v : WatchedResult) (db' : DB)
    (hb : IdsBounded db)
    (hNodup : (db.movies.map MovieRow.id).Nodup)
    (h1 : markAsWatched db i (some uid) t1 n1 = (some v, db')) :
    (∀ t2 n2, markAsWatched db' i (some uid) t2 n2 = (none, db')) ∧
    (∀ rat rev t2 n2,
      (ctrlMarkAsWatched db' (some uid) i rat rev t2 n2).1.status = 404) ∧
    (∀ ops : List WatchlistOp, ∀ r ∈ (applyOps db' ops).movies,
      r.id = i → r.watched = true) := by
  obtain ⟨⟨r0, hf, hp0, hm0⟩, hdb'⟩ := markAsWatched_some_inv h1
  subst hdb'
  have hnil := markApply_filter_nil db i uid t1 n1
  have hsecond : ∀ t2 n2,
      markAsWatched (markApply db i uid t1 n1) i (some uid) t2 n2
        = (none, markApply db i uid t1 n1) :=
    fun t2 n2 => markAsWatched_noMatch _ i uid hnil t2 n2
  have hid0 : r0.id = i ∧ r0.user_id = uid ∧ r0.watched = false := by
    simpa [isUnwatchedRowOf] using hp0
  refine ⟨hsecond, ?_, ?_⟩
  · intro rat rev t2 n2
    unfold ctrlMarkAsWatched
    rw [hsecond t2 n2]
  · have hb' : IdsBounded (markApply db i uid t1 n1) := by
      intro r' hr'
      simp only [markApply, List.mem_map] at hr'
      obtain ⟨x, hx, rfl⟩ := hr'
      by_cases hpx : isUnwatchedRowOf i uid x
      · simpa [hpx, markUpd] using hb x hx
      · simpa [hpx] using hb x hx
    have hi : i < (markApply db i uid t1 n1).nextId := hid0.1 ▸ hb r0 hm0
    have hw' : IdWatched (markApply db i uid t1 n1) i := by
      intro r' hr' hid'
      simp only [markApply, List.mem_map] at hr'
      obtain ⟨x, hx, rfl⟩ := hr'
      by_cases hpx : isUnwatchedRowOf i uid x
      · simp [hpx, markUpd]
      · rw [if_neg (by simp [hpx])] at hid' ⊢
        have hxr0 : x = r0 :=
          List.inj_on_of_nodup_map hNodup hx hm0 (by rw [hid', hid0.1])
        rw [← hxr0] at hp0
        exact absurd hp0 hpx
    intro ops
    exact applyOps_idWatched ops (markApply db i uid t1 n1) i hb' hi hw'

/-- Claim C2 witness: the one-way transition at a concrete store. -/
theorem c2_markWatched_one_way_witness :
    markAsWatched dbMarked 10 (some 7) "d2" 2 = (none, dbMarked) ∧
    (ctrlMarkAsWatched dbMarked (some 7) 10 (some 4) none "d2" 2).1.status = 404 := by
  have h := c2_markWatched_one_way dbMark 7 10 "d1" 1
    { id := 10, title := "m", genre := "g", watchedDate := some "d1",
      rating := 0, review := "" }
    dbMarked (by unfold IdsBounded; decide) (by decide) (by decide)
  exact ⟨h.1 "d2" 2, h.2.1 (some 4) none "d2" 2⟩

/-- Claim C3: a mutating request whose path is not under the /api/ route
mount and whose CSRF token is missing or mismatched fails with the 403
error page, whatever its session state — including a fully authenticated
session — while any request under the /api/ mount skips CSRF validation
entirely: its outcome is independent of the token's validity. -/
theorem c3_csrf_guard (p m : String) (s : Bool)
    (hp : strStarts p "/api/" = false) (hm : csrfIgnoredMethod m = false) :
    dispatch { path := p, method := m, hasSessionUser := s, csrfValid := false }
      = .errorPage 403 ∧
    (∀ q : String, strStarts q "/api/" = true → ∀ s' b b' : Bool,
      dispatch { path := q, method := m, hasSessionUser := s', csrfValid := b }
        = dispatch { path := q, method := m, hasSessionUser := s', csrfValid := b' }) := by
  constructor
  · simp [dispatch, csrfRejects, errorHandlerStatus, hp, hm]
  · intro q hq s' b b'
    simp [dispatch, csrfRejects, authWallAllows, hq]

/-- Claim C3 witness: a session-valid POST outside /api/ without a CSRF
token is rejected 403; a POST under /api/ is insensitive to the token. -/
theorem c3_csrf_guard_witness :
    dispatch { path := "/watchlist", method := "POST", hasSessionUser := true,
               csrfValid := false } = .errorPage 403 ∧
    dispatch { path := "/api/movies", method := "POST", hasSessionUser := true,
               csrfValid := false }
      = dispatch { path := "/api/movies", method := "POST", hasSessionUser := true,
                   csrfValid := true } := by
  have h := c3_csrf_guard "/watchlist" "POST" true (by decide) (by decide)
  exact ⟨h.1, h.2 "/api/movies" (by decide) true false true⟩

/-- Claim C8: the delete-account endpoint destroys the local session only
after the identity backend confirms the identity deletion: whenever the
backend interaction fails, the endpoint fails 500 with the session left
intact, and a destroyed session implies a confirmed backend deletion. -/
theorem c8_delete_account_session_safety (b : BackendDelete)
    (hfail : (deleteAccountService b).success = false) :
    postDeleteAccount true b
      = { status := 500, success := false, sessionDestroyed := false } ∧
    (∀ (b' : BackendDelete) (hasUser : Bool),
      (postDeleteAccount hasUser b').sessionDestroyed = true →
        (deleteAccountService b').success = true) := by
  constructor
  · unfold postDeleteAccount
    simp [hfail]
  · intro b' hasUser h
    unfold postDeleteAccount at h
    by_cases hu : hasUser = true
    · rw [hu] at h
      by_cases hs : (deleteAccountService b').success = true
      · exact hs
      · simp [hs] at h
    · simp [hu] at h

/-- Claim C8 witness: a failed backend deletion at a concrete input. -/
theorem c8_delete_account_session_safety_witness :
    postDeleteAccount true (.deleteError "backend down")
      = { status := 500, success := false, sessionDestroyed := false } :=
  (c8_delete_account_session_safety (.deleteError "backend down") (by decide)).1

/-- Claim C9: searchByTitle fails 400 ValidationError exactly when the
query is absent, empty or whitespace-only; with a configured key, a
non-empty query returns the upstream's candidate list (possibly empty) and
total count; an upstream 429 fails 429 with the distinct rate-limit error,
not the generic upstream-failure error; and the handler issues at most one
upstream lookup — it never retries internally. -/
theorem c9_search_contract (q : String) (hq : jsTrim q ≠ "")
    (rs : List TmdbRecord) (tot : Nat) :
    (∀ (query : Option String) (key : Bool) (up : UpstreamResponse),
      (searchMovies query key up).status = 400 ↔
        (query = none ∨ jsTrim (query.getD "") = "")) ∧
    searchMovies (some q) true (.ok rs tot)
      = { status := 200, success := true, error := none,
          results := some rs, totalResults := some tot } ∧
    searchMovies (some q) true (.httpError 429)
      = { status := 429, success := false,
          error := some "Rate limit exceeded. Please try again later.",
          results := none, totalResults := none } ∧
    (searchMovies (some q) true (.httpError 429)).error ≠
      some "Failed to search movies. Please try again later." ∧
    (∀ (query : Option String) (key : Bool),
      searchMoviesFetchCount query key ≤ 1) := by
  have hqe : q ≠ "" := by
    intro h0
    rw [h0] at hq
    exact hq (by decide)
  refine ⟨?_, ?_, ?_, ?_, ?_⟩
  · intro query key up
    cases query with
    | none => simp [searchMovies, truthyStr]
    | some s =>
      by_cases hts : jsTrim s = ""
      · simp [searchMovies, truthyStr, hts]
      · have hs : s ≠ "" := by
          intro h0
          rw [h0] at hts
          exact hts (by decide)
        simp only [searchMovies, truthyStr, Option.getD_some]
        rw [if_neg (by simp [hs, hts])]
        cases key with
        | false => simp [hts]
        | true =>
          cases up with
          | ok rs2 tot2 => simp [hts]
          | httpError st =>
            by_cases h429 : st == 429
            · simp [h429, hts]
            · simp [h429, hts]
          | networkFailure msg => simp [hts]
  · simp [searchMovies, truthyStr, hqe, hq]
  · simp [searchMovies, truthyStr, hqe, hq]
  · simp [searchMovies, truthyStr, hqe, hq]
  · intro query key
    unfold searchMoviesFetchCount
    by_cases h1 : (!truthyStr query || jsTrim (query.getD "") == "") = true
    · simp [h1]
    · rw [if_neg (by simp_all)]
      by_cases h2 : key = true
      · simp [h2]
      · simp [h2]

/-- Claim C9 witness: the contract at a concrete query and stub upstream. -/
theorem c9_search_contract_witness :
    searchMovies (some "matrix") true (.ok [{ tmdbId := 603, title := "The Matrix" }] 1)
      = { status := 200, success := true, error := none,
          results := some [{ tmdbId := 603, title := "The Matrix" }],
          totalResults := some 1 } ∧
    searchMovies (some "matrix") true (.httpError 429)
      = { status := 429, success := false,
          error := some "Rate limit exceeded. Please try again later.",
          results := none, totalResults := none } := by
  have h := c9_search_contract "matrix" (by decide)
    [{ tmdbId := 603, title := "The Matrix" }] 1
  exact ⟨h.2.1, h.2.2.1⟩

/-- Claim C10: every movie-model operation invoked with no ownerId resolves
the owner to the first row of the users table and behaves exactly as if
that arbitrary user had been the caller — no operation fails
Unauthenticated at the model layer. -/
theorem c10_missing_owner_falls_back_to_first_user (db : DB) (u : Nat)
    (h : db.users.head? = some u)
    (m : MovieInput) (i : Nat) (rv : Option String) (rt : Option Int)
    (today : String) (now : Nat) :
    resolveUserId db none = some u ∧
    getAllWatchlistMovies db none = getAllWatchlistMovies db (some u) ∧
    getAllWatchedMovies db none = getAllWatchedMovies db (some u) ∧
    addMovie db m none today now = addMovie db m (some u) today now ∧
    markAsWatched db i none today now = markAsWatched db i (some u) today now ∧
    removeMovie db i none = removeMovie db i (some u) ∧
    updateMovieReview db i rv rt none now
      = updateMovieReview db i rv rt (some u) now := by
  have hr : resolveUserId db none = some u := by
    simp [resolveUserId, getUserId, h]
  refine ⟨hr, ?_, ?_, ?_, ?_, ?_, ?_⟩ <;>
    simp [getAllWatchlistMovies, getAllWatchedMovies, addMovie, markAsWatched,
      removeMovie, updateMovieReview, resolveUserId, getUserId, h]

/-- Claim C10 witness: with users [1, 2], an ownerless removeMovie acts as
user 1 and deletes user 1's Movie. -/
theorem c10_missing_owner_falls_back_to_first_user_witness :
    removeMovie dbTwoUsers 10 none = removeMovie dbTwoUsers 10 (some 1) ∧
    (removeMovie dbTwoUsers 10 none).2.movies = [] := by
  have h := c10_missing_owner_falls_back_to_first_user dbTwoUsers 1 (by decide)
    { title := "T", genre := "g", desireScale := 3 } 10 none none "d" 5
  refine ⟨h.2.2.2.2.2.1, ?_⟩
  rw [h.2.2.2.2.2.1]
  decide

end Watchlist
